import Mathlib

/-!
Verification of the D-ID streaming signaling and peer-connection core.

This file shallowly embeds the state and operations of the
streaming core and proves the behavioural claims about it:

* `src/lib/utils/constants.ts` — `STREAM_CONFIG`, `TIMING`, `ELEVENLABS_CONFIG`.
* `src/.../webrtcManager.ts` (`WebRTCManager` class) — transport state,
  the data-channel status classifier `processStreamEvent`, the readiness
  fallback and settle timers, and `close()`.
* `src/lib/services/didClient.ts` (`DidClient` class) — connection state,
  `sendTextMessage`, `handleInitStream`, the inbound `ice` handler, the
  outbound ICE candidate handler, and the error-envelope handler.
* `src/.../useDidStreaming.ts` hook — the message sequencer built on the
  `isStreaming` flag.

Asynchronous callbacks (`setTimeout`, `setInterval`) are modelled by
explicit "timer armed" results plus separate firing functions whose bodies
are the timer callbacks; JavaScript truthiness of optional strings is
modelled by `jsTruthyStr`; opaque platform objects (`RTCPeerConnection`,
`RTCDataChannel`, `WebSocket`) are modelled by their presence and the
fields the code reads.
-/

namespace DidNextjs

/-- JavaScript truthiness of an optional string: `null`/`undefined` and the
empty string are falsy, every other string is truthy. -/
def jsTruthyStr : Option String → Bool
  | none => false
  | some s => !(s == "")

/-! ## Constants (src/lib/utils/constants.ts) -/

/-- `STREAM_CONFIG` from constants.ts. -/
structure StreamConfig where
  warmup : Bool
  stitch : Bool
  ssml : Bool
deriving DecidableEq

def STREAM_CONFIG : StreamConfig :=
  { warmup := true, stitch := true, ssml := false }

/-- `TIMING` from constants.ts (all values in milliseconds). -/
structure Timing where
  ELEVENLABS_RESET_MS : Nat
  STREAM_READY_FALLBACK_MS : Nat
  STREAM_READY_SETTLE_MS : Nat
  STATS_POLL_INTERVAL_MS : Nat
deriving DecidableEq

def TIMING : Timing :=
  { ELEVENLABS_RESET_MS := 2000
    STREAM_READY_FALLBACK_MS := 5000
    STREAM_READY_SETTLE_MS := 1000
    STATS_POLL_INTERVAL_MS := 2000 }

/-- `ELEVENLABS_CONFIG` from constants.ts; `voice_id` is the compiled-in
default (the env override is deployment configuration, not code). -/
structure ElevenLabsConfig where
  model_id : String
  voice_id : String
deriving DecidableEq

def ELEVENLABS_CONFIG : ElevenLabsConfig :=
  { model_id := "eleven_flash_v2_5", voice_id := "2EiwWnXFnvU5JabPnv8n" }

/-! ## WebRTCManager (src/unnamed/part_014) -/

/-- Mutable fields of the `WebRTCManager` class. The `RTCPeerConnection` and
`RTCDataChannel` objects are opaque platform handles; only their presence
(`null` or not) is observable in the claims, so they are modelled as
`Option Unit`. `statsIntervalId` is the interval handle from
`setupStatsMonitoring`. -/
structure WebRTCManagerState where
  peerConnection : Option Unit
  dataChannel : Option Unit
  statsIntervalId : Option Nat
  lastBytesReceived : Nat
  isStreamReady : Bool
  videoIsPlaying : Bool
deriving DecidableEq

/-- Field initialisers of the `WebRTCManager` class:
`_isStreamReady = !STREAM_CONFIG.warmup`, `_videoIsPlaying = false`. -/
def WebRTCManagerState.initial : WebRTCManagerState :=
  { peerConnection := none
    dataChannel := none
    statsIntervalId := none
    lastBytesReceived := 0
    isStreamReady := !STREAM_CONFIG.warmup
    videoIsPlaying := false }

/-- `const [eventType] = event.split(":")` — the segment of the raw string
before the first colon (the whole string when there is no colon). -/
def eventTypeOf (event : String) : String :=
  String.mk (event.toList.takeWhile (fun c => !(c == ':')))

/-- Result of `WebRTCManager.processStreamEvent`: the classified status and
the `isReady` boolean it returns, the (unchanged) manager state at the
moment of return, and whether the call armed the `STREAM_READY_SETTLE_MS`
one-shot timer (the `setTimeout` in the `stream/ready` branch). -/
structure ProcessStreamEventResult where
  status : String
  isReady : Bool
  state : WebRTCManagerState
  settleTimerArmed : Bool
deriving DecidableEq

/-- `WebRTCManager.processStreamEvent`: classify the colon-delimited raw
data-channel string. The `stream/ready` branch only schedules the settle
timer; `_isStreamReady` is not assigned synchronously, and the returned
`isReady` reads the current (pre-timer) value. -/
def WebRTCManager.processStreamEvent (s : WebRTCManagerState) (event : String) :
    ProcessStreamEventResult :=
  if eventTypeOf event == "stream/started" then
    { status := "started", isReady := s.isStreamReady, state := s, settleTimerArmed := false }
  else if eventTypeOf event == "stream/done" then
    { status := "done", isReady := s.isStreamReady, state := s, settleTimerArmed := false }
  else if eventTypeOf event == "stream/ready" then
    { status := "ready", isReady := s.isStreamReady, state := s, settleTimerArmed := true }
  else if eventTypeOf event == "stream/error" then
    { status := "error", isReady := s.isStreamReady, state := s, settleTimerArmed := false }
  else
    { status := "dont-care", isReady := s.isStreamReady, state := s, settleTimerArmed := false }

/-- Body of the settle-timer callback armed by the `stream/ready` branch:
`this._isStreamReady = true` after `TIMING.STREAM_READY_SETTLE_MS`. -/
def WebRTCManager.fireStreamReadySettleTimer (s : WebRTCManagerState) : WebRTCManagerState :=
  { s with isStreamReady := true }

/-- `WebRTCManager.handleConnectionEstablished`, run on transport state
"connected": its only effect is arming the `STREAM_READY_FALLBACK_MS`
one-shot timer (returned boolean); the state is untouched. -/
def WebRTCManager.handleConnectionEstablished (s : WebRTCManagerState) :
    WebRTCManagerState × Bool :=
  (s, true)

/-- Body of the fallback-timer callback armed by
`handleConnectionEstablished`: `if (!this._isStreamReady) this._isStreamReady = true`. -/
def WebRTCManager.fireStreamReadyFallbackTimer (s : WebRTCManagerState) : WebRTCManagerState :=
  if !s.isStreamReady then { s with isStreamReady := true } else s

/-- `WebRTCManager.close`: clear the stats interval, close and discard the
data channel, stop tracks and discard the peer connection, then reset
`_isStreamReady` to `!STREAM_CONFIG.warmup`, `_videoIsPlaying` to `false`
and `lastBytesReceived` to `0`. Handler detachment and `track.stop()` act
on the discarded opaque objects and have no further observable state. -/
def WebRTCManager.close (s : WebRTCManagerState) : WebRTCManagerState :=
  let s1 := if s.statsIntervalId.isSome then { s with statsIntervalId := none } else s
  let s2 := if s1.dataChannel.isSome then { s1 with dataChannel := none } else s1
  let s3 := if s2.peerConnection.isSome then { s2 with peerConnection := none } else s2
  { s3 with
    isStreamReady := !STREAM_CONFIG.warmup
    videoIsPlaying := false
    lastBytesReceived := 0 }

/-- The `onStreamEvent` data-channel callback that `DidClient.handleInitStream`
installs (src/lib/services/didClient.ts, lines 315-320): it classifies the raw
string with `WebRTCManager.processStreamEvent` and unconditionally forwards the
classified `status` to the `onStreamEvent` callback of the caller. Returns the
status string delivered to the caller. -/
def WebRTCManager.dataChannelCallbackStatus (s : WebRTCManagerState) (raw : String) : String :=
  (WebRTCManager.processStreamEvent s raw).status

/-- A `WebRTCManager` state whose readiness is already `true` (for example
after the fallback timer fired), used as a concrete witness input. -/
def wmReadyState : WebRTCManagerState :=
  { WebRTCManagerState.initial with isStreamReady := true }

/-! ## DidClient (src/lib/services/didClient.ts) -/

/-- `ConnectionState` from the types module, as held by `DidClient`. -/
structure ConnectionState where
  isConnecting : Bool
  isConnected : Bool
  streamId : Option String
  sessionId : Option String
  error : Option String
deriving DecidableEq

/-- The `serviceType` discriminator of `DidClient`. -/
inductive ServiceType
  | talks
  | clips
deriving DecidableEq

/-- `this.serviceType === "clips" ? "clip" : "talk"`. -/
def presenterTypeOf : ServiceType → String
  | ServiceType.clips => "clip"
  | ServiceType.talks => "talk"

/-- `WebSocket.OPEN`. -/
def WebSocketOPEN : Nat := 1

/-- The only field of the `WebSocket` object the client reads before
sending: `readyState`. -/
structure WebSocketState where
  readyState : Nat
deriving DecidableEq

/-- The `script.provider` object of an outbound `stream-text` payload. -/
structure ScriptProvider where
  type : String
  voice_id : String
  model_id : String
deriving DecidableEq

/-- The `script` object of an outbound `stream-text` payload. -/
structure StreamTextScript where
  type : String
  input : String
  provider : ScriptProvider
  ssml : Bool
deriving DecidableEq

/-- Outbound `stream-text` payload. `config` is inlined as its single field
`stitch`; `apiKeyExternal` is the optional `elevenlabs.key` credential. -/
structure StreamTextPayload where
  script : StreamTextScript
  stitch : Bool
  session_id : Option String
  stream_id : Option String
  index : Nat
  presenter_type : String
  apiKeyExternal : Option String
deriving DecidableEq

/-- Outbound `ice` payload built by `DidClient.handleIceCandidate`. -/
structure OutboundIcePayload where
  stream_id : Option String
  session_id : Option String
  presenter_type : String
  candidate : String
  sdpMid : Option String
  sdpMLineIndex : Option Nat
deriving DecidableEq

/-- Outbound `sdp` payload built by `DidClient.handleInitStream`. -/
structure SdpPayload where
  answer : String
  session_id : Option String
  presenter_type : String
deriving DecidableEq

/-- Outbound `delete-stream` payload built by `DidClient.disconnect`. -/
structure DeleteStreamPayload where
  session_id : Option String
  stream_id : Option String
deriving DecidableEq

/-- Outbound envelopes (`StreamMessage` union in the types module). -/
inductive StreamMessage
  | initStream (presenter_type : String)
  | sdp (payload : SdpPayload)
  | ice (payload : OutboundIcePayload)
  | streamText (payload : StreamTextPayload)
  | deleteStream (payload : DeleteStreamPayload)
deriving DecidableEq

/-- Fields of `DidClient` relevant to the claims; the `WebRTCManager`
instance is kept in `WebRTCManagerState`, and `elevenlabsApiKey` is the
only `ApiConfig` field read on the send path. -/
structure DidClientState where
  ws : Option WebSocketState
  connectionState : ConnectionState
  serviceType : ServiceType
  elevenlabsApiKey : String
deriving DecidableEq

/-- Errors thrown synchronously by `DidClient` on the paths under claim:
`notConnected` is `Error("Not connected to streaming service")`,
`invalidInitStreamResponse` is `Error("Invalid init-stream response")`,
`webrtcSetupFailed` is the rethrown failure from WebRTC answer creation. -/
inductive DidClientError
  | notConnected
  | invalidInitStreamResponse
  | webrtcSetupFailed
deriving DecidableEq

/-- `DidClient.sendMessage`: the envelope is written to the channel only
when a WebSocket exists and its `readyState` is `OPEN`; otherwise the call
logs and transmits nothing. Returns the list of envelopes transmitted. -/
def DidClient.sendMessage (st : DidClientState) (message : StreamMessage) :
    List StreamMessage :=
  match st.ws with
  | none => []
  | some w => if w.readyState == WebSocketOPEN then [message] else []

/-- Outcome of a synchronous `DidClient` call: the error thrown (if any),
the client state after the call, and the envelopes transmitted. -/
structure DidClientCallResult where
  thrown : Option DidClientError
  state : DidClientState
  sent : List StreamMessage
deriving DecidableEq

/-- `DidClient.sendTextMessage(text, messageIndex)`: throws `notConnected`
when the WebSocket is absent or `streamId` or `sessionId` is unset
(JavaScript-falsy); otherwise builds the `stream-text` envelope — the
`clips` variant omits `apiKeyExternal`, the `talks` variant inlines the
ElevenLabs key — and hands it to `sendMessage`. It assigns no field of the
client state on any path. -/
def DidClient.sendTextMessage (st : DidClientState) (text : String) (messageIndex : Nat) :
    DidClientCallResult :=
  if !st.ws.isSome || !(jsTruthyStr st.connectionState.streamId)
      || !(jsTruthyStr st.connectionState.sessionId) then
    { thrown := some DidClientError.notConnected, state := st, sent := [] }
  else
    let payloadBase : StreamTextPayload :=
      { script :=
          { type := "text"
            input := text
            provider :=
              { type := "elevenlabs"
                voice_id := ELEVENLABS_CONFIG.voice_id
                model_id := ELEVENLABS_CONFIG.model_id }
            ssml := st.serviceType == ServiceType.clips }
        stitch := true
        session_id := st.connectionState.sessionId
        stream_id := st.connectionState.streamId
        index := messageIndex
        presenter_type := presenterTypeOf st.serviceType
        apiKeyExternal := none }
    let payload :=
      if st.serviceType == ServiceType.clips then payloadBase
      else { payloadBase with apiKeyExternal := some st.elevenlabsApiKey }
    { thrown := none
      state := st
      sent := DidClient.sendMessage st (StreamMessage.streamText payload) }

/-- The fields of an inbound `init-stream` response that
`DidClient.handleInitStream` validates. `id` and `session_id` are strings
(JavaScript-falsy when absent or empty); `offer` is the SDP object and
`ice_servers` the servers array, both falsy only when absent (an empty
array is truthy). -/
structure InitStreamResponse where
  id : Option String
  session_id : Option String
  offer : Option String
  ice_servers : Option (List Unit)
deriving DecidableEq

/-- `DidClient.handleInitStream`: throws `invalidInitStreamResponse` before
touching any state when one of the four required fields is missing;
otherwise assigns `streamId` and `sessionId` in one shallow-merge update,
then asks the WebRTC manager for an answer (modelled by the
`createAnswer` argument, since answer creation is a platform negotiation):
on success it transmits the `sdp` envelope, on failure it records
"WebRTC connection failed", clears `isConnecting`, and rethrows. -/
def DidClient.handleInitStream (st : DidClientState) (data : InitStreamResponse)
    (createAnswer : Except String String) : DidClientCallResult :=
  if !(jsTruthyStr data.id) || !(jsTruthyStr data.session_id)
      || !data.offer.isSome || !data.ice_servers.isSome then
    { thrown := some DidClientError.invalidInitStreamResponse, state := st, sent := [] }
  else
    let st1 :=
      { st with connectionState :=
          { st.connectionState with streamId := data.id, sessionId := data.session_id } }
    match createAnswer with
    | Except.ok answer =>
      let sdpMessage := StreamMessage.sdp
        { answer := answer
          session_id := st1.connectionState.sessionId
          presenter_type := presenterTypeOf st1.serviceType }
      { thrown := none, state := st1, sent := DidClient.sendMessage st1 sdpMessage }
    | Except.error _ =>
      { thrown := some DidClientError.webrtcSetupFailed
        state :=
          { st1 with connectionState :=
              { st1.connectionState with
                isConnecting := false
                error := some "WebRTC connection failed" } }
        sent := [] }

/-- The candidate fields of a nested inbound `ice` payload, as read off the
object the handler selects (`CandPayload` in the source). -/
structure InboundIceCandidate where
  candidate : Option String
  sdpMid : Option String
  sdpMLineIndex : Option Nat
deriving DecidableEq

/-- A JavaScript value sitting in the `candidate` field of the inbound payload:
either a plain string (the flat shape) or a nested candidate object. -/
inductive IceCandidateField
  | str (s : String)
  | obj (c : InboundIceCandidate)
deriving DecidableEq

/-- An inbound `ice` payload: the `candidate` field may be absent, a string
(flat shape, with `sdpMid`/`sdpMLineIndex` at top level) or a nested
object. -/
structure InboundIcePayload where
  candidate : Option IceCandidateField
  sdpMid : Option String
  sdpMLineIndex : Option Nat
deriving DecidableEq

/-- `const candPayload = (data.payload.candidate ?? data.payload)` followed
by the `candPayload && candPayload.candidate` guard. When the `candidate`
field holds a nested object with a truthy candidate string, the fields of that
fields are used; when it holds a plain string, reading `.candidate` off a
string yields `undefined`, so the guard rejects it; when it is absent, the
fallback object is the payload itself, whose `.candidate` is again consulted
and found absent. Returns the candidate actually passed to
`RTCIceCandidate`, or `none` when the guard rejects. -/
def extractRemoteCandidate (payload : InboundIcePayload) : Option InboundIceCandidate :=
  match payload.candidate with
  | some (IceCandidateField.obj c) => if jsTruthyStr c.candidate then some c else none
  | some (IceCandidateField.str _) => none
  | none => none

/-- The body inside the `try` of the `case "ice"` branch of
`DidClient.handleWebSocketMessage`: nothing happens unless both the peer
connection and a payload exist; otherwise the extracted candidate (if any)
is applied via `pc.addIceCandidate`, whose possible rejection is the
`applyCandidate` argument. Returns whether a candidate was applied, or the
error that escaped the body. -/
def DidClient.handleIceMessageBody (pc : Option Unit) (payload : Option InboundIcePayload)
    (applyCandidate : InboundIceCandidate → Except String Unit) : Except String Bool :=
  match pc, payload with
  | some _, some p =>
    match extractRemoteCandidate p with
    | some c =>
      match applyCandidate c with
      | Except.ok _ => Except.ok true
      | Except.error e => Except.error e
    | none => Except.ok false
  | _, _ => Except.ok false

/-- The full `case "ice"` branch: the `try`/`catch` turns any error from the
body into a logged no-op, so the dispatch always completes. Returns whether
a candidate was applied. -/
def DidClient.handleIceMessage (pc : Option Unit) (payload : Option InboundIcePayload)
    (applyCandidate : InboundIceCandidate → Except String Unit) : Bool :=
  match DidClient.handleIceMessageBody pc payload applyCandidate with
  | Except.ok applied => applied
  | Except.error _ => false

/-- A locally discovered ICE candidate as destructured from
`event.candidate` in `DidClient.handleIceCandidate`. -/
structure LocalIceCandidate where
  candidate : String
  sdpMid : Option String
  sdpMLineIndex : Option Nat
deriving DecidableEq

/-- `DidClient.handleIceCandidate(event)`: a null `event.candidate` (the
end-of-gathering marker) returns immediately without sending; a non-null
candidate is forwarded individually in an `ice` envelope carrying the
candidate fields plus the session and stream routing identifiers. Returns
the envelopes transmitted. -/
def DidClient.handleIceCandidate (st : DidClientState)
    (eventCandidate : Option LocalIceCandidate) : List StreamMessage :=
  match eventCandidate with
  | none => []
  | some c =>
    DidClient.sendMessage st (StreamMessage.ice
      { stream_id := st.connectionState.streamId
        session_id := st.connectionState.sessionId
        presenter_type := presenterTypeOf st.serviceType
        candidate := c.candidate
        sdpMid := c.sdpMid
        sdpMLineIndex := c.sdpMLineIndex })

/-- An error value inside an error envelope: a string, or a structured
object represented by its JSON serialization (only its serialization is
observable through `JSON.stringify`). -/
inductive ErrorField
  | str (s : String)
  | obj (serialized : String)
deriving DecidableEq

/-- JavaScript truthiness of an optional error value: absent and the empty
string are falsy; a non-empty string or any object is truthy. -/
def jsTruthyErr : Option ErrorField → Bool
  | none => false
  | some (ErrorField.str s) => !(s == "")
  | some (ErrorField.obj _) => true

/-- Shape of D-ID error envelopes (`DidErrorPayload` in the source):
`payloadError` is the nested `payload?.error` field. -/
structure DidErrorPayload where
  message : Option String
  error : Option ErrorField
  connectionId : Option String
  requestId : Option String
  payloadError : Option ErrorField
deriving DecidableEq

/-- Rendering of an error value, as `typeof e === "string" ? e :
JSON.stringify(e)` produces it. -/
def ErrorField.render : ErrorField → String
  | ErrorField.str s => s
  | ErrorField.obj j => j

/-- `JSON.stringify(data)` over the whole error payload, modelled by a
canonical field-by-field rendering (the exact JSON text is opaque to the
claims; only that some string is produced matters). -/
def DidErrorPayload.serialize (d : DidErrorPayload) : String :=
  String.intercalate ","
    ((match d.message with | none => [] | some s => ["message:" ++ s]) ++
     (match d.error with | none => [] | some e => ["error:" ++ e.render]) ++
     (match d.connectionId with | none => [] | some s => ["connectionId:" ++ s]) ++
     (match d.requestId with | none => [] | some s => ["requestId:" ++ s]) ++
     (match d.payloadError with | none => [] | some e => ["payload.error:" ++ e.render]))

/-- `DidClient.formatApiError`: a truthy `message` wins, decorated with the
`connectionId`/`requestId` details; otherwise a truthy `error`, then a
truthy `payload.error`, rendered as-is when a string and serialized when an
object; otherwise the whole payload is serialized behind "API Error: ". -/
def DidClient.formatApiError (d : DidErrorPayload) : String :=
  if jsTruthyStr d.message then
    let details : List String :=
      (if jsTruthyStr d.connectionId then ["Connection: " ++ d.connectionId.getD ""] else []) ++
      (if jsTruthyStr d.requestId then ["Request: " ++ d.requestId.getD ""] else [])
    let errorMsg := d.message.getD ""
    if details.length > 0 then
      errorMsg ++ " (" ++ String.intercalate ", " details ++ ")"
    else errorMsg
  else if jsTruthyErr d.error then
    (d.error.getD (ErrorField.str "")).render
  else if jsTruthyErr d.payloadError then
    (d.payloadError.getD (ErrorField.str "")).render
  else
    "API Error: " ++ d.serialize

/-- The `case "error"` branch of `DidClient.handleWebSocketMessage`:
`updateConnectionState({ error: formatApiError(data), isConnecting: false })`
— a shallow merge that leaves every other field of the client alone. -/
def DidClient.handleErrorMessage (st : DidClientState) (d : DidErrorPayload) :
    DidClientState :=
  { st with connectionState :=
      { st.connectionState with
        error := some (DidClient.formatApiError d)
        isConnecting := false } }

/-- The guard of the `default` branch:
`errorPayload.error || ("message" in data)` — a truthy `error` field, or a
`message` field merely being present. -/
def DidClient.isErrorLike (d : DidErrorPayload) : Bool :=
  jsTruthyErr d.error || d.message.isSome

/-- The `default` branch of `DidClient.handleWebSocketMessage`: an
unrecognized envelope carrying an error-like field is handled exactly as an
`error` envelope; anything else is logged and dropped. -/
def DidClient.handleUnknownMessage (st : DidClientState) (d : DidErrorPayload) :
    DidClientState :=
  if DidClient.isErrorLike d then DidClient.handleErrorMessage st d else st

/-- A concrete connected client state used as witness input. -/
def clientConnectedState : DidClientState :=
  { ws := some { readyState := WebSocketOPEN }
    connectionState :=
      { isConnecting := false
        isConnected := true
        streamId := some "stream-1"
        sessionId := some "session-1"
        error := none }
    serviceType := ServiceType.talks
    elevenlabsApiKey := "el-key" }

/-- A concrete client state with no WebSocket and no session, used as
witness input. -/
def clientIdleState : DidClientState :=
  { ws := none
    connectionState :=
      { isConnecting := false
        isConnected := false
        streamId := none
        sessionId := none
        error := none }
    serviceType := ServiceType.talks
    elevenlabsApiKey := "el-key" }

/-! ## useDidStreaming hook — the message sequencer (src/unnamed/part_016) -/

/-- The `StreamingState` React state of `useDidStreaming`; `streamVideo` is
the opaque `MediaStream` handle. -/
structure StreamingState where
  connectionState : ConnectionState
  streamVideo : Option Unit
  streamStatus : String
  isVideoPlaying : Bool
  isStreaming : Bool
deriving DecidableEq

/-- Errors thrown synchronously by the hook function `sendTextMessage`:
`notConnected` is `Error("Not connected to streaming service")`,
`alreadyStreaming` is `Error("Already streaming a message. Please wait for
current stream to complete.")`, and `clientFailure` is a rethrown failure
from `DidClient.sendTextMessage`. -/
inductive HookError
  | notConnected
  | alreadyStreaming
  | clientFailure
deriving DecidableEq

/-- Outcome of the hook function `sendTextMessage`: the error thrown (if any), the
React state after the synchronous call, the `messageIndexRef` counter after
the call, and the `(text, index)` argument pair actually passed to
`DidClient.sendTextMessage` (if the call was reached). -/
structure HookSendResult where
  thrown : Option HookError
  state : StreamingState
  messageIndex : Nat
  sentToClient : Option (String × Nat)
deriving DecidableEq

/-- The hook function `sendTextMessage(text)`: throws `notConnected` when no client
exists or the connection state is not connected; throws `alreadyStreaming`
when `isStreaming` is set; otherwise calls
`didClient.sendTextMessage(text, 0)` — the wire index is always 0 — and
increments `messageIndexRef` afterwards (not when the client call throws,
modelled by `clientSendOk`). No branch assigns any `StreamingState` field. -/
def useDidStreaming.sendTextMessage (s : StreamingState) (messageIndex : Nat)
    (didClientPresent : Bool) (clientSendOk : Bool) (text : String) : HookSendResult :=
  if !didClientPresent || !s.connectionState.isConnected then
    { thrown := some HookError.notConnected, state := s
      messageIndex := messageIndex, sentToClient := none }
  else if s.isStreaming then
    { thrown := some HookError.alreadyStreaming, state := s
      messageIndex := messageIndex, sentToClient := none }
  else if clientSendOk then
    { thrown := none, state := s
      messageIndex := messageIndex + 1, sentToClient := some (text, 0) }
  else
    { thrown := some HookError.clientFailure, state := s
      messageIndex := messageIndex, sentToClient := some (text, 0) }

/-- Outcome of the hook function `onStreamEvent` callback: the updated React state
and whether the `ELEVENLABS_RESET_MS` one-shot timer was armed (the
`setTimeout` scheduled in the "done" branch). -/
structure HookStreamEventResult where
  state : StreamingState
  resetTimerArmed : Bool
deriving DecidableEq

/-- The hook function `onStreamEvent(status)` callback installed by `connect`:
records `streamStatus`, toggles `isVideoPlaying` and `isStreaming` to
`true` on "started" and `false` on "done", leaving both unchanged on every
other status (including "error"), and on "done" arms the
`ELEVENLABS_RESET_MS` reset timer. -/
def useDidStreaming.onStreamEvent (s : StreamingState) (status : String) :
    HookStreamEventResult :=
  { state :=
      { s with
        streamStatus := status
        isVideoPlaying :=
          if status == "started" then true
          else if status == "done" then false
          else s.isVideoPlaying
        isStreaming :=
          if status == "started" then true
          else if status == "done" then false
          else s.isStreaming }
    resetTimerArmed := status == "done" }

/-- Body of the reset-timer callback armed by the "done" branch of
`onStreamEvent`: force `isStreaming` back to `false`. -/
def useDidStreaming.fireElevenLabsResetTimer (s : StreamingState) : StreamingState :=
  { s with isStreaming := false }

/-- A concrete connected, non-streaming hook state used as counterexample
input. -/
def hookConnectedState : StreamingState :=
  { connectionState :=
      { isConnecting := false
        isConnected := true
        streamId := some "stream-1"
        sessionId := some "session-1"
        error := none }
    streamVideo := none
    streamStatus := ""
    isVideoPlaying := false
    isStreaming := false }

/-- A concrete connected hook state whose `isStreaming` flag is set, used
as witness input. -/
def hookStreamingState : StreamingState :=
  { hookConnectedState with isStreaming := true }

end DidNextjs

namespace DidNextjs

/-! ## Theorems for claims C4, C5, C6, C7 -/

/-- Helper: `processStreamEvent` returns `isReady` equal to the prior
`_isStreamReady` and leaves the state unchanged, on every input. -/
theorem processStreamEvent_isReady_eq (s : WebRTCManagerState) (ev : String) :
    (WebRTCManager.processStreamEvent s ev).isReady = s.isStreamReady ∧
    (WebRTCManager.processStreamEvent s ev).state = s := by
  unfold WebRTCManager.processStreamEvent
  split <;> try exact ⟨rfl, rfl⟩
  split <;> try exact ⟨rfl, rfl⟩
  split <;> try exact ⟨rfl, rfl⟩
  split <;> exact ⟨rfl, rfl⟩

/-- Helper: the output vocabulary of the classifier is closed. -/
theorem processStreamEvent_status_mem (s : WebRTCManagerState) (ev : String) :
    (WebRTCManager.processStreamEvent s ev).status ∈
      (["started", "done", "ready", "error", "dont-care"] : List String) := by
  unfold WebRTCManager.processStreamEvent
  split <;> try simp
  split <;> try simp
  split <;> try simp
  split <;> simp

/-- Claim C4: the classifier maps "stream/done:abc" to status "done" and
"stream/ready:xyz" to status "ready"; on a `stream/ready` input the call
arms the settle timer but does not change `_isStreamReady`, and the
returned `isReady` still holds its prior value; readiness flips to `true`
only when the settle timer later fires. -/
theorem stream_event_classifier_and_settle_delay :
    (∀ s : WebRTCManagerState,
      (WebRTCManager.processStreamEvent s "stream/done:abc").status = "done") ∧
    (∀ s : WebRTCManagerState,
      (WebRTCManager.processStreamEvent s "stream/ready:xyz").status = "ready") ∧
    (∀ s : WebRTCManagerState,
      (WebRTCManager.processStreamEvent s "stream/ready:xyz").isReady = s.isStreamReady ∧
      (WebRTCManager.processStreamEvent s "stream/ready:xyz").state = s ∧
      (WebRTCManager.processStreamEvent s "stream/ready:xyz").settleTimerArmed = true) ∧
    (∀ s : WebRTCManagerState,
      (WebRTCManager.fireStreamReadySettleTimer s).isStreamReady = true) := by
  refine ⟨fun s => rfl, fun s => rfl, fun s => ⟨rfl, rfl, rfl⟩, fun s => rfl⟩

/-- Claim C5 counterexample: on the concrete raw string "foo:bar", whose
prefix is unrecognized, the classifier produces the literal status
"dont-care", not "ignored". -/
theorem stream_event_unknown_status_literal :
    (WebRTCManager.processStreamEvent WebRTCManagerState.initial "foo:bar").status
      = "dont-care" ∧
    (WebRTCManager.processStreamEvent WebRTCManagerState.initial "foo:bar").status
      ≠ "ignored" := by
  refine ⟨rfl, by decide⟩

/-- Claim C5 (amended): for every raw string whose colon-delimited prefix is
not one of the four recognized `stream/...` prefixes, the classifier maps it
to the neutral status "dont-care" (the status the spec calls `ignored`),
within the closed vocabulary started/done/ready/error/dont-care, and that
status is propagated unchanged to the stream-event callback of the caller. -/
theorem stream_event_unknown_maps_to_dont_care (s : WebRTCManagerState) (raw : String)
    (h : eventTypeOf raw ∉
      (["stream/started", "stream/done", "stream/ready", "stream/error"] : List String)) :
    (WebRTCManager.processStreamEvent s raw).status = "dont-care" ∧
    WebRTCManager.dataChannelCallbackStatus s raw = "dont-care" ∧
    (∀ t ev, (WebRTCManager.processStreamEvent t ev).status ∈
      (["started", "done", "ready", "error", "dont-care"] : List String)) := by
  simp only [List.mem_cons, List.mem_singleton, not_or] at h
  obtain ⟨h1, h2, h3, h4⟩ := h
  have hmain : (WebRTCManager.processStreamEvent s raw).status = "dont-care" := by
    unfold WebRTCManager.processStreamEvent
    rw [if_neg, if_neg, if_neg, if_neg]
    · simpa using h4
    · simpa using h3
    · simpa using h2
    · simpa using h1
  exact ⟨hmain, hmain, fun t ev => processStreamEvent_status_mem t ev⟩

/-- Witness for the amended C5 theorem at the concrete raw string "foo:bar". -/
theorem stream_event_unknown_maps_to_dont_care_witness :
    eventTypeOf "foo:bar" ∉
      (["stream/started", "stream/done", "stream/ready", "stream/error"] : List String) ∧
    WebRTCManager.dataChannelCallbackStatus wmReadyState "foo:bar" = "dont-care" :=
  ⟨by decide,
   (stream_event_unknown_maps_to_dont_care wmReadyState "foo:bar" (by decide)).2.1⟩

/-- Claim C6: the readiness fallback timer (armed by
`handleConnectionEstablished` on transport "connected") never downgrades
readiness: when readiness is already `true` at fire time it changes nothing
at all, and when readiness is still `false` it forces readiness to `true`;
after firing, readiness is always `true`. -/
theorem fallback_timer_idempotent_never_downgrades :
    (∀ s : WebRTCManagerState, WebRTCManager.handleConnectionEstablished s = (s, true)) ∧
    (∀ s : WebRTCManagerState, s.isStreamReady = true →
      WebRTCManager.fireStreamReadyFallbackTimer s = s) ∧
    (∀ s : WebRTCManagerState, s.isStreamReady = false →
      (WebRTCManager.fireStreamReadyFallbackTimer s).isStreamReady = true) ∧
    (∀ s : WebRTCManagerState,
      (WebRTCManager.fireStreamReadyFallbackTimer s).isStreamReady = true) := by
  refine ⟨fun s => rfl, ?_, ?_, ?_⟩
  · intro s h
    unfold WebRTCManager.fireStreamReadyFallbackTimer
    simp [h]
  · intro s h
    unfold WebRTCManager.fireStreamReadyFallbackTimer
    simp [h]
  · intro s
    unfold WebRTCManager.fireStreamReadyFallbackTimer
    cases h : s.isStreamReady <;> simp [h]

/-- Witness for C6 at concrete states: firing with readiness already `true`
is a no-op, and firing with readiness `false` forces it to `true`. -/
theorem fallback_timer_idempotent_never_downgrades_witness :
    wmReadyState.isStreamReady = true ∧
    WebRTCManager.fireStreamReadyFallbackTimer wmReadyState = wmReadyState ∧
    WebRTCManagerState.initial.isStreamReady = false ∧
    (WebRTCManager.fireStreamReadyFallbackTimer WebRTCManagerState.initial).isStreamReady
      = true :=
  ⟨rfl,
   fallback_timer_idempotent_never_downgrades.2.1 wmReadyState rfl,
   rfl,
   fallback_timer_idempotent_never_downgrades.2.2.1 WebRTCManagerState.initial rfl⟩

/-- Claim C7: after `close()`, regardless of the prior state, readiness
equals its configured startup value `!STREAM_CONFIG.warmup`, playing is
`false`, the byte counter is `0`, the stats interval is cleared, and the
peer connection and data channel handles are discarded — i.e. `close`
always produces the initial state. -/
theorem close_resets_to_initial (s : WebRTCManagerState) :
    WebRTCManager.close s =
      { peerConnection := none
        dataChannel := none
        statsIntervalId := none
        lastBytesReceived := 0
        isStreamReady := !STREAM_CONFIG.warmup
        videoIsPlaying := false } ∧
    WebRTCManager.close s = WebRTCManagerState.initial := by
  obtain ⟨pc, dc, si, lb, r, v⟩ := s
  constructor <;> (rcases pc <;> rcases dc <;> rcases si <;> rfl)

/-! ## Theorems for claims C2, C3, C8, C9, C10 -/

/-- Claim C2: an inbound init-stream response missing any of the four
required fields makes `handleInitStream` throw
`invalidInitStreamResponse` with the client state unchanged — in particular
neither `sessionId` nor `streamId` is assigned — and on every input the
handler either leaves both identifiers untouched or assigns both from the
response, never one without the other. -/
theorem init_stream_missing_field_fatal (st : DidClientState) (data : InitStreamResponse)
    (createAnswer : Except String String)
    (h : jsTruthyStr data.id = false ∨ jsTruthyStr data.session_id = false ∨
         data.offer = none ∨ data.ice_servers = none) :
    DidClient.handleInitStream st data createAnswer =
      { thrown := some DidClientError.invalidInitStreamResponse, state := st, sent := [] } ∧
    (DidClient.handleInitStream st data createAnswer).state.connectionState.streamId
      = st.connectionState.streamId ∧
    (DidClient.handleInitStream st data createAnswer).state.connectionState.sessionId
      = st.connectionState.sessionId ∧
    (∀ (st2 : DidClientState) (d2 : InitStreamResponse) (f2 : Except String String),
      ((DidClient.handleInitStream st2 d2 f2).state.connectionState.streamId
          = st2.connectionState.streamId ∧
       (DidClient.handleInitStream st2 d2 f2).state.connectionState.sessionId
          = st2.connectionState.sessionId) ∨
      ((DidClient.handleInitStream st2 d2 f2).state.connectionState.streamId = d2.id ∧
       (DidClient.handleInitStream st2 d2 f2).state.connectionState.sessionId
          = d2.session_id)) := by
  have hmain : DidClient.handleInitStream st data createAnswer =
      { thrown := some DidClientError.invalidInitStreamResponse, state := st, sent := [] } := by
    unfold DidClient.handleInitStream
    rcases h with h | h | h | h <;> simp [h]
  refine ⟨hmain, by rw [hmain], by rw [hmain], ?_⟩
  intro st2 d2 f2
  unfold DidClient.handleInitStream
  split
  · exact Or.inl ⟨rfl, rfl⟩
  · right
    cases f2 <;> exact ⟨rfl, rfl⟩

/-- Witness for C2 at a concrete response missing its `id` field. -/
theorem init_stream_missing_field_fatal_witness :
    jsTruthyStr (InitStreamResponse.mk none (some "session-1") (some "offer-sdp")
        (some [])).id = false ∧
    DidClient.handleInitStream clientConnectedState
        (InitStreamResponse.mk none (some "session-1") (some "offer-sdp") (some []))
        (Except.ok "answer-sdp") =
      { thrown := some DidClientError.invalidInitStreamResponse
        state := clientConnectedState
        sent := [] } :=
  ⟨rfl,
   (init_stream_missing_field_fatal clientConnectedState
      (InitStreamResponse.mk none (some "session-1") (some "offer-sdp") (some []))
      (Except.ok "answer-sdp") (Or.inl rfl)).1⟩

/-- Claim C3: for all text inputs and message indices, `sendTextMessage`
throws `notConnected` whenever the WebSocket is absent or `streamId` or
`sessionId` is unset, and in that failing case the client state is
unchanged and no envelope is transmitted. -/
theorem send_text_not_connected (st : DidClientState) (text : String) (messageIndex : Nat)
    (h : st.ws = none ∨ jsTruthyStr st.connectionState.streamId = false ∨
         jsTruthyStr st.connectionState.sessionId = false) :
    DidClient.sendTextMessage st text messageIndex =
      { thrown := some DidClientError.notConnected, state := st, sent := [] } := by
  unfold DidClient.sendTextMessage
  rcases h with h | h | h <;> simp [h]

/-- Witness for C3 at a concrete disconnected state. -/
theorem send_text_not_connected_witness :
    clientIdleState.ws = none ∧
    DidClient.sendTextMessage clientIdleState "hello" 3 =
      { thrown := some DidClientError.notConnected, state := clientIdleState, sent := [] } :=
  ⟨rfl, send_text_not_connected clientIdleState "hello" 3 (Or.inl rfl)⟩

/-- Claim C8: an inbound `ice` envelope arriving before the peer connection
exists never throws out of the dispatch, for every payload shape (flat,
nested, or without a candidate field) and every behaviour of
`addIceCandidate`: the body inside the `try` already completes without
error and without applying a candidate, so the candidate is safely
discarded and the session continues. -/
theorem ice_before_peer_connection_safe (payload : Option InboundIcePayload)
    (applyCandidate : InboundIceCandidate → Except String Unit) :
    DidClient.handleIceMessageBody none payload applyCandidate = Except.ok false ∧
    DidClient.handleIceMessage none payload applyCandidate = false := by
  cases payload <;> exact ⟨rfl, rfl⟩

/-- Claim C9: `handleIceCandidate` transmits an `ice` envelope exactly for
non-null candidates: a null candidate (end-of-gathering marker) sends
nothing, and a non-null candidate, with the channel open, is forwarded
individually in a single envelope carrying its `candidate`, `sdpMid` and
`sdpMLineIndex` fields plus the session and stream routing identifiers. -/
theorem ice_candidate_sent_iff_non_null (st : DidClientState)
    (eventCandidate : Option LocalIceCandidate) :
    (eventCandidate = none → DidClient.handleIceCandidate st eventCandidate = []) ∧
    (∀ (c : LocalIceCandidate) (w : WebSocketState),
      eventCandidate = some c → st.ws = some w → w.readyState = WebSocketOPEN →
      DidClient.handleIceCandidate st eventCandidate =
        [StreamMessage.ice
          { stream_id := st.connectionState.streamId
            session_id := st.connectionState.sessionId
            presenter_type := presenterTypeOf st.serviceType
            candidate := c.candidate
            sdpMid := c.sdpMid
            sdpMLineIndex := c.sdpMLineIndex }]) := by
  constructor
  · intro h
    subst h
    rfl
  · intro c w hc hw hopen
    subst hc
    unfold DidClient.handleIceCandidate DidClient.sendMessage
    rw [hw]
    simp [hopen]

/-- Witness for C9: a null candidate sends nothing, and a concrete non-null
candidate on an open channel is forwarded with its fields. -/
theorem ice_candidate_sent_iff_non_null_witness :
    DidClient.handleIceCandidate clientConnectedState none = [] ∧
    DidClient.handleIceCandidate clientConnectedState
        (some { candidate := "cand-line", sdpMid := some "0", sdpMLineIndex := some 0 }) =
      [StreamMessage.ice
        { stream_id := some "stream-1"
          session_id := some "session-1"
          presenter_type := "talk"
          candidate := "cand-line"
          sdpMid := some "0"
          sdpMLineIndex := some 0 }] :=
  ⟨(ice_candidate_sent_iff_non_null clientConnectedState none).1 rfl,
   (ice_candidate_sent_iff_non_null clientConnectedState
      (some { candidate := "cand-line", sdpMid := some "0", sdpMLineIndex := some 0 })).2
      { candidate := "cand-line", sdpMid := some "0", sdpMLineIndex := some 0 }
      { readyState := WebSocketOPEN } rfl rfl rfl⟩

/-- Claim C10: every envelope handled as an error — messageType "error", or
an unrecognized messageType whose payload is error-like — sets
`ConnectionState.error` to the normalized message and `isConnecting` to
`false`, while `isConnected`, `streamId`, `sessionId` and the WebSocket
itself are left untouched. -/
theorem error_envelope_sets_error_only (st : DidClientState) (d : DidErrorPayload) :
    (DidClient.handleErrorMessage st d).connectionState.error
      = some (DidClient.formatApiError d) ∧
    (DidClient.handleErrorMessage st d).connectionState.isConnecting = false ∧
    (DidClient.handleErrorMessage st d).connectionState.isConnected
      = st.connectionState.isConnected ∧
    (DidClient.handleErrorMessage st d).connectionState.streamId
      = st.connectionState.streamId ∧
    (DidClient.handleErrorMessage st d).connectionState.sessionId
      = st.connectionState.sessionId ∧
    (DidClient.handleErrorMessage st d).ws = st.ws ∧
    (DidClient.isErrorLike d = true →
      DidClient.handleUnknownMessage st d = DidClient.handleErrorMessage st d) := by
  refine ⟨rfl, rfl, rfl, rfl, rfl, rfl, ?_⟩
  intro h
  unfold DidClient.handleUnknownMessage
  rw [if_pos h]

/-- Witness for C10 at the concrete quota-exceeded error envelope from the spec. -/
theorem error_envelope_sets_error_only_witness :
    DidClient.isErrorLike
      (DidErrorPayload.mk (some "Quota exceeded") none (some "c1") none none) = true ∧
    DidClient.handleUnknownMessage clientConnectedState
        (DidErrorPayload.mk (some "Quota exceeded") none (some "c1") none none) =
      DidClient.handleErrorMessage clientConnectedState
        (DidErrorPayload.mk (some "Quota exceeded") none (some "c1") none none) :=
  ⟨rfl,
   (error_envelope_sets_error_only clientConnectedState
      (DidErrorPayload.mk (some "Quota exceeded") none (some "c1") none none)).2.2.2.2.2.2
      rfl⟩

/-! ## Theorems for claim C1 -/

/-- Claim C1 counterexample: from a concrete connected, idle state, a first
`submit` succeeds yet leaves the in-flight flag `false` — a successful
submit does not mark the segment in flight — and a second `submit` issued
while the first is still unresolved also succeeds instead of throwing
`alreadyStreaming`. -/
theorem submit_does_not_mark_in_flight :
    (useDidStreaming.sendTextMessage hookConnectedState 0 true true "hello").thrown
      = none ∧
    (useDidStreaming.sendTextMessage hookConnectedState 0 true true "hello").state.isStreaming
      = false ∧
    (useDidStreaming.sendTextMessage
      (useDidStreaming.sendTextMessage hookConnectedState 0 true true "hello").state
      1 true true "again").thrown = none :=
  ⟨rfl, rfl, rfl⟩

/-- Claim C1 (amended): with a client present and the state connected, a
second `submit` while the in-flight flag `isStreaming` is set throws
`alreadyStreaming` synchronously, with the state unchanged and nothing
handed to the client (no queuing, no overwrite); the flag is not set by the
submit call itself — no branch of `sendTextMessage` ever changes the hook
state — but upon observing the classified status "started"; it is cleared
upon observing "done" (which also arms the reset timer whose firing forces
it to `false`), and is left unchanged by the "error" status; hence it is
never cleared merely because the synchronous submit call returned. -/
theorem second_submit_throws_already_streaming (s : StreamingState) (messageIndex : Nat)
    (clientSendOk : Bool) (text : String)
    (hconn : s.connectionState.isConnected = true) (hflight : s.isStreaming = true) :
    useDidStreaming.sendTextMessage s messageIndex true clientSendOk text =
      { thrown := some HookError.alreadyStreaming, state := s
        messageIndex := messageIndex, sentToClient := none } ∧
    (∀ (t : StreamingState) (i : Nat) (p ok : Bool) (txt : String),
      (useDidStreaming.sendTextMessage t i p ok txt).state = t) ∧
    (∀ t : StreamingState, (useDidStreaming.onStreamEvent t "started").state.isStreaming
      = true) ∧
    (∀ t : StreamingState, (useDidStreaming.onStreamEvent t "done").state.isStreaming
        = false ∧
      (useDidStreaming.onStreamEvent t "done").resetTimerArmed = true ∧
      (useDidStreaming.fireElevenLabsResetTimer t).isStreaming = false) ∧
    (∀ t : StreamingState, (useDidStreaming.onStreamEvent t "error").state.isStreaming
      = t.isStreaming) := by
  refine ⟨?_, ?_, fun t => rfl, fun t => ⟨rfl, rfl, rfl⟩, fun t => rfl⟩
  · unfold useDidStreaming.sendTextMessage
    simp [hconn, hflight]
  · intro t i p ok txt
    unfold useDidStreaming.sendTextMessage
    split
    · rfl
    · split
      · rfl
      · split <;> rfl

/-- Witness for the amended C1 theorem at a concrete connected state whose
in-flight flag is set. -/
theorem second_submit_throws_already_streaming_witness :
    hookStreamingState.connectionState.isConnected = true ∧
    hookStreamingState.isStreaming = true ∧
    useDidStreaming.sendTextMessage hookStreamingState 2 true true "hi" =
      { thrown := some HookError.alreadyStreaming, state := hookStreamingState
        messageIndex := 2, sentToClient := none } :=
  ⟨rfl, rfl,
   (second_submit_throws_already_streaming hookStreamingState 2 true "hi" rfl rfl).1⟩

end DidNextjs
